import Mathlib

/-!
Shallow embedding of `src/Falha_Tsai_Wu.py`: the `Tsai_Wu` failure-criterion
class (constructor `__init__` and method `criterio`) and the free function
`tensao`. Python floats are modelled as real numbers; the non-finite
(inf/NaN) outcomes of float division by zero and of the square root of a
negative number are modelled separately by an `Option`-valued variant of the
safety-factor expression.
-/

/-- The state of a `Tsai_Wu` object after `__init__`
(src/Falha_Tsai_Wu.py lines 39-55): the twelve stored tensor coefficients. -/
structure Tsai_Wu where
  F1 : ℝ
  F2 : ℝ
  F3 : ℝ
  F11 : ℝ
  F22 : ℝ
  F33 : ℝ
  F44 : ℝ
  F55 : ℝ
  F66 : ℝ
  F12 : ℝ
  F13 : ℝ
  F23 : ℝ

/-- `Tsai_Wu.__init__(Xc, Xt, Zc, Zt, Sxy, Syz, Yc=None, Yt=None, Sxz=None)`
(src/Falha_Tsai_Wu.py lines 14-55).  The three optional parameters default to
`None` in the source and are passed here as `Option ℝ`; the Python guard
`Yc is not None and Yt is not None and Sxz is not None` is the three-`some`
match. -/
noncomputable def Tsai_Wu.init (Xc Xt Zc Zt Sxy Syz : ℝ)
    (Yc Yt Sxz : Option ℝ) : Tsai_Wu :=
  let F11 := 1/Xc/Xt
  let F33 := 1/Zc/Zt
  let F1 := (Xc - Xt)/Xc/Xt
  let F3 := (Zc - Zt)/Zc/Zt
  let F66 := 1/(Sxy^2)
  let F44 := 1/(Syz^2)
  let Y : ℝ × ℝ × ℝ :=
    match Yc, Yt, Sxz with
    | some yc, some yt, some sxz => ((yc - yt)/yc/yt, 1/yc/yt, 1/(sxz^2))
    | _, _, _ => (F1, F11, F44)
  let F2 := Y.1
  let F22 := Y.2.1
  let F55 := Y.2.2
  let F12 := 4*Real.sqrt F66 - (2*F1*Real.sqrt F66 + 2*F2*Real.sqrt F66 + F11 + F22 + F66)
  let F13 := 4*Real.sqrt F55 - (2*F1*Real.sqrt F55 + 2*F3*Real.sqrt F55 + F11 + F33 + F55)
  let F23 := 4*Real.sqrt F44 - (2*F2*Real.sqrt F44 + 2*F3*Real.sqrt F44 + F22 + F33 + F44)
  ⟨F1, F2, F3, F11, F22, F33, F44, F55, F66, F12, F13, F23⟩

/-- The failure index `R` computed on line 82 of `criterio`. -/
noncomputable def Tsai_Wu.R (self : Tsai_Wu) (x y z xy xz yz : ℝ) : ℝ :=
  self.F1*x + self.F2*y + self.F3*z + self.F11*(x^2) + self.F22*(y^2)
    + self.F33*(z^2) + self.F44*(yz^2) + self.F55*(xz^2) + self.F66*(xy^2)
    + 2*self.F12*x*y + 2*self.F13*x*z + 2*self.F23*y*z

/-- The quantity `A` computed identically on lines 84 and 88 of `criterio`
(shear terms enter linearly, interaction terms are subtracted). -/
noncomputable def Tsai_Wu.A (self : Tsai_Wu) (x y z xy xz yz : ℝ) : ℝ :=
  self.F11*x^2 + self.F22*y^2 + self.F33*z^2 + self.F44*yz + self.F55*xz
    + self.F66*xy - self.F12*x*y - self.F13*x*z - self.F23*y*z

/-- The quantity `B` computed identically on lines 85 and 89 of `criterio`. -/
noncomputable def Tsai_Wu.B (self : Tsai_Wu) (x y z xy xz yz : ℝ) : ℝ :=
  self.F1*x + self.F2*y + self.F3*z

/-- The safety-factor expression printed on lines 86 and 90:
`1/2/A*(np.sqrt((B**2) + 4*A) - B)`, identical in both branches. -/
noncomputable def Tsai_Wu.fator (self : Tsai_Wu) (x y z xy xz yz : ℝ) : ℝ :=
  1/2/(self.A x y z xy xz yz)
    * (Real.sqrt ((self.B x y z xy xz yz)^2 + 4*(self.A x y z xy xz yz))
       - self.B x y z xy xz yz)

/-- The safety-factor expression as IEEE floats evaluate it: `none` models the
non-finite printed outcome (±inf or NaN, from the float division by `A = 0` or
from `np.sqrt` of a negative discriminant); `some` carries the finite real
value otherwise. -/
noncomputable def Tsai_Wu.fatorFin (self : Tsai_Wu) (x y z xy xz yz : ℝ) : Option ℝ :=
  if self.A x y z xy xz yz = 0
      ∨ (self.B x y z xy xz yz)^2 + 4*(self.A x y z xy xz yz) < 0 then none
  else some (self.fator x y z xy xz yz)

/-- The content of the line `criterio` prints (lines 86 and 90): the verdict
("O material vai falhar" / "O material não vai falhar"), the failure index `R`
and the safety factor.  The `print` side effect is modelled by returning this
record alongside the returned `self`. -/
structure Relatorio where
  falha : Bool
  R : ℝ
  fator : ℝ

/-- `Tsai_Wu.criterio(self, x=0, y=0, z=0, xy=0, xz=0, yz=0)`
(src/Falha_Tsai_Wu.py lines 58-91): computes `R`, branches on
`np.abs(R) >= 1`, prints the report (here: the `Relatorio` component) and
returns `self` (here: the first component).  Both branches compute the same
`A`, `B` and safety-factor expression, as in the source. -/
noncomputable def Tsai_Wu.criterio (self : Tsai_Wu) (x y z xy xz yz : ℝ) :
    Tsai_Wu × Relatorio :=
  let R := self.R x y z xy xz yz
  if 1 ≤ |R| then
    (self, ⟨true, R, self.fator x y z xy xz yz⟩)
  else
    (self, ⟨false, R, self.fator x y z xy xz yz⟩)

/-- `tensao(h, b, t, MF, MTp, FC, MTt)` (src/Falha_Tsai_Wu.py lines 93-130):
section stresses of a hollow rectangular box, returned as the 6-tuple
`(X, 0, 0, 0, 0, yz)` matching `criterio`'s parameter order. -/
noncomputable def tensao (h b t MF MTp FC MTt : ℝ) : ℝ × ℝ × ℝ × ℝ × ℝ × ℝ :=
  let Ix := b*(h^3)/12 - ((b - 2*t)*((h - 2*t)^3))/12
  let Iy := h*(b^3)/12 - ((h - 2*t)*((b - 2*t)^3))/12
  let J := Ix + Iy
  let Q := (h*b - (h - 2*t)*(b - 2*t))*h/2
  let X := -(MF*(h/2)/Ix)
  let yz := |MTt*(h/2)/J| + |MTp*(h/2)/J| + |(FC*Q)/(Ix*(2*t))|
  (X, 0, 0, 0, 0, yz)

/-- C1: for every stress input, the safety factor reported by `criterio`
equals `(sqrt(B^2 + 4A) - B) / (2A)` with `B = F1*x + F2*y + F3*z` and
`A = F11*x^2 + F22*y^2 + F33*z^2 + F44*yz + F55*xz + F66*xy - F12*x*y
- F13*x*z - F23*y*z` (shear terms linear, interaction terms subtracted),
in both the failing and non-failing branches. -/
theorem criterio_fator_eq_formula (tw : Tsai_Wu) (x y z xy xz yz : ℝ) :
    (tw.criterio x y z xy xz yz).2.fator =
      (Real.sqrt ((tw.F1*x + tw.F2*y + tw.F3*z)^2
          + 4*(tw.F11*x^2 + tw.F22*y^2 + tw.F33*z^2 + tw.F44*yz + tw.F55*xz
              + tw.F66*xy - tw.F12*x*y - tw.F13*x*z - tw.F23*y*z))
        - (tw.F1*x + tw.F2*y + tw.F3*z))
      / (2*(tw.F11*x^2 + tw.F22*y^2 + tw.F33*z^2 + tw.F44*yz + tw.F55*xz
          + tw.F66*xy - tw.F12*x*y - tw.F13*x*z - tw.F23*y*z)) := by
  simp only [Tsai_Wu.criterio]
  split <;>
    simp only [Tsai_Wu.fator, Tsai_Wu.A, Tsai_Wu.B] <;>
    rw [div_div, one_div_mul_eq_div]

/-- C2: for every stress input, `criterio` computes the failure index
`R = F1*x + F2*y + F3*z + F11*x^2 + F22*y^2 + F33*z^2 + F44*yz^2 + F55*xz^2
+ F66*xy^2 + 2*F12*x*y + 2*F13*x*z + 2*F23*y*z`, and the failure verdict is
true exactly when `|R| ≥ 1`. -/
theorem criterio_R_and_verdict (tw : Tsai_Wu) (x y z xy xz yz : ℝ) :
    (tw.criterio x y z xy xz yz).2.R =
      tw.F1*x + tw.F2*y + tw.F3*z + tw.F11*x^2 + tw.F22*y^2 + tw.F33*z^2
        + tw.F44*yz^2 + tw.F55*xz^2 + tw.F66*xy^2
        + 2*tw.F12*x*y + 2*tw.F13*x*z + 2*tw.F23*y*z
    ∧ ((tw.criterio x y z xy xz yz).2.falha = true ↔
        1 ≤ |tw.F1*x + tw.F2*y + tw.F3*z + tw.F11*x^2 + tw.F22*y^2 + tw.F33*z^2
          + tw.F44*yz^2 + tw.F55*xz^2 + tw.F66*xy^2
          + 2*tw.F12*x*y + 2*tw.F13*x*z + 2*tw.F23*y*z|) := by
  simp only [Tsai_Wu.criterio]
  split <;> rename_i h <;> simp_all [Tsai_Wu.R]

/-- C4: when the three optional parameters `Yc Yt Sxz` are all absent, the
stored coefficients satisfy `F2 = F1`, `F22 = F11` and `F55 = F44` exactly. -/
theorem init_all_optional_absent (Xc Xt Zc Zt Sxy Syz : ℝ) :
    (Tsai_Wu.init Xc Xt Zc Zt Sxy Syz none none none).F2
        = (Tsai_Wu.init Xc Xt Zc Zt Sxy Syz none none none).F1
    ∧ (Tsai_Wu.init Xc Xt Zc Zt Sxy Syz none none none).F22
        = (Tsai_Wu.init Xc Xt Zc Zt Sxy Syz none none none).F11
    ∧ (Tsai_Wu.init Xc Xt Zc Zt Sxy Syz none none none).F55
        = (Tsai_Wu.init Xc Xt Zc Zt Sxy Syz none none none).F44 :=
  ⟨rfl, rfl, rfl⟩

/-- C8: `tensao` returns exactly the 6-tuple `(X, 0, 0, 0, 0, YZ)` with
`Ix = b*h^3/12 - (b-2t)*(h-2t)^3/12`, `Iy = h*b^3/12 - (h-2t)*(b-2t)^3/12`,
`J = Ix + Iy`, `Q = (h*b - (h-2t)*(b-2t))*h/2`, `X = -(MF*(h/2)/Ix)` and
`YZ = |MTt*(h/2)/J| + |MTp*(h/2)/J| + |FC*Q/(Ix*2t)|`; the four middle
components are identically zero. -/
theorem tensao_eq_formula (h b t MF MTp FC MTt : ℝ) :
    tensao h b t MF MTp FC MTt =
      (-(MF*(h/2)/(b*(h^3)/12 - ((b - 2*t)*((h - 2*t)^3))/12)),
       0, 0, 0, 0,
       |MTt*(h/2)/((b*(h^3)/12 - ((b - 2*t)*((h - 2*t)^3))/12)
            + (h*(b^3)/12 - ((h - 2*t)*((b - 2*t)^3))/12))|
         + |MTp*(h/2)/((b*(h^3)/12 - ((b - 2*t)*((h - 2*t)^3))/12)
            + (h*(b^3)/12 - ((h - 2*t)*((b - 2*t)^3))/12))|
         + |(FC*((h*b - (h - 2*t)*(b - 2*t))*h/2))
            /((b*(h^3)/12 - ((b - 2*t)*((h - 2*t)^3))/12)*(2*t))|) := rfl

/-- C3: for every construction with nonzero strength parameters, the stored
coefficients equal the closed forms `F11 = 1/(Xc*Xt)`, `F33 = 1/(Zc*Zt)`,
`F1 = (Xc-Xt)/(Xc*Xt)`, `F3 = (Zc-Zt)/(Zc*Zt)`, `F66 = 1/Sxy^2`,
`F44 = 1/Syz^2`, and each interaction coefficient equals
`4*sqrt(Fkk) - (2*Fi*sqrt(Fkk) + 2*Fj*sqrt(Fkk) + Fii + Fjj + Fkk)` for its
`(i, j, kk)` triple (not the `F12 = F13 = F23 = -1` variant, which the source
leaves commented out). -/
theorem init_coefficients (Xc Xt Zc Zt Sxy Syz : ℝ) (Yc Yt Sxz : Option ℝ)
    (hXc : Xc ≠ 0) (hXt : Xt ≠ 0) (hZc : Zc ≠ 0) (hZt : Zt ≠ 0)
    (hSxy : Sxy ≠ 0) (hSyz : Syz ≠ 0) :
    (Tsai_Wu.init Xc Xt Zc Zt Sxy Syz Yc Yt Sxz).F11 = 1/(Xc*Xt)
    ∧ (Tsai_Wu.init Xc Xt Zc Zt Sxy Syz Yc Yt Sxz).F33 = 1/(Zc*Zt)
    ∧ (Tsai_Wu.init Xc Xt Zc Zt Sxy Syz Yc Yt Sxz).F1 = (Xc - Xt)/(Xc*Xt)
    ∧ (Tsai_Wu.init Xc Xt Zc Zt Sxy Syz Yc Yt Sxz).F3 = (Zc - Zt)/(Zc*Zt)
    ∧ (Tsai_Wu.init Xc Xt Zc Zt Sxy Syz Yc Yt Sxz).F66 = 1/Sxy^2
    ∧ (Tsai_Wu.init Xc Xt Zc Zt Sxy Syz Yc Yt Sxz).F44 = 1/Syz^2
    ∧ (Tsai_Wu.init Xc Xt Zc Zt Sxy Syz Yc Yt Sxz).F12 =
        4*Real.sqrt (Tsai_Wu.init Xc Xt Zc Zt Sxy Syz Yc Yt Sxz).F66
          - (2*(Tsai_Wu.init Xc Xt Zc Zt Sxy Syz Yc Yt Sxz).F1
                * Real.sqrt (Tsai_Wu.init Xc Xt Zc Zt Sxy Syz Yc Yt Sxz).F66
             + 2*(Tsai_Wu.init Xc Xt Zc Zt Sxy Syz Yc Yt Sxz).F2
                * Real.sqrt (Tsai_Wu.init Xc Xt Zc Zt Sxy Syz Yc Yt Sxz).F66
             + (Tsai_Wu.init Xc Xt Zc Zt Sxy Syz Yc Yt Sxz).F11
             + (Tsai_Wu.init Xc Xt Zc Zt Sxy Syz Yc Yt Sxz).F22
             + (Tsai_Wu.init Xc Xt Zc Zt Sxy Syz Yc Yt Sxz).F66)
    ∧ (Tsai_Wu.init Xc Xt Zc Zt Sxy Syz Yc Yt Sxz).F13 =
        4*Real.sqrt (Tsai_Wu.init Xc Xt Zc Zt Sxy Syz Yc Yt Sxz).F55
          - (2*(Tsai_Wu.init Xc Xt Zc Zt Sxy Syz Yc Yt Sxz).F1
                * Real.sqrt (Tsai_Wu.init Xc Xt Zc Zt Sxy Syz Yc Yt Sxz).F55
             + 2*(Tsai_Wu.init Xc Xt Zc Zt Sxy Syz Yc Yt Sxz).F3
                * Real.sqrt (Tsai_Wu.init Xc Xt Zc Zt Sxy Syz Yc Yt Sxz).F55
             + (Tsai_Wu.init Xc Xt Zc Zt Sxy Syz Yc Yt Sxz).F11
             + (Tsai_Wu.init Xc Xt Zc Zt Sxy Syz Yc Yt Sxz).F33
             + (Tsai_Wu.init Xc Xt Zc Zt Sxy Syz Yc Yt Sxz).F55)
    ∧ (Tsai_Wu.init Xc Xt Zc Zt Sxy Syz Yc Yt Sxz).F23 =
        4*Real.sqrt (Tsai_Wu.init Xc Xt Zc Zt Sxy Syz Yc Yt Sxz).F44
          - (2*(Tsai_Wu.init Xc Xt Zc Zt Sxy Syz Yc Yt Sxz).F2
                * Real.sqrt (Tsai_Wu.init Xc Xt Zc Zt Sxy Syz Yc Yt Sxz).F44
             + 2*(Tsai_Wu.init Xc Xt Zc Zt Sxy Syz Yc Yt Sxz).F3
                * Real.sqrt (Tsai_Wu.init Xc Xt Zc Zt Sxy Syz Yc Yt Sxz).F44
             + (Tsai_Wu.init Xc Xt Zc Zt Sxy Syz Yc Yt Sxz).F22
             + (Tsai_Wu.init Xc Xt Zc Zt Sxy Syz Yc Yt Sxz).F33
             + (Tsai_Wu.init Xc Xt Zc Zt Sxy Syz Yc Yt Sxz).F44) := by
  refine ⟨?_, ?_, ?_, ?_, rfl, rfl, rfl, rfl, rfl⟩ <;>
    simp only [Tsai_Wu.init] <;> rw [div_div]

/-- Witness for C3 at the concrete material
`Tsai_Wu.init 1 1 1 1 1 1 none none none`. -/
theorem init_coefficients_witness :
    ((1:ℝ) ≠ 0)
    ∧ ((Tsai_Wu.init 1 1 1 1 1 1 none none none).F11 = 1/((1:ℝ)*1)
       ∧ (Tsai_Wu.init 1 1 1 1 1 1 none none none).F33 = 1/((1:ℝ)*1)
       ∧ (Tsai_Wu.init 1 1 1 1 1 1 none none none).F1 = ((1:ℝ) - 1)/((1:ℝ)*1)
       ∧ (Tsai_Wu.init 1 1 1 1 1 1 none none none).F3 = ((1:ℝ) - 1)/((1:ℝ)*1)
       ∧ (Tsai_Wu.init 1 1 1 1 1 1 none none none).F66 = 1/(1:ℝ)^2
       ∧ (Tsai_Wu.init 1 1 1 1 1 1 none none none).F44 = 1/(1:ℝ)^2
       ∧ (Tsai_Wu.init 1 1 1 1 1 1 none none none).F12 =
           4*Real.sqrt (Tsai_Wu.init 1 1 1 1 1 1 none none none).F66
             - (2*(Tsai_Wu.init 1 1 1 1 1 1 none none none).F1
                   * Real.sqrt (Tsai_Wu.init 1 1 1 1 1 1 none none none).F66
                + 2*(Tsai_Wu.init 1 1 1 1 1 1 none none none).F2
                   * Real.sqrt (Tsai_Wu.init 1 1 1 1 1 1 none none none).F66
                + (Tsai_Wu.init 1 1 1 1 1 1 none none none).F11
                + (Tsai_Wu.init 1 1 1 1 1 1 none none none).F22
                + (Tsai_Wu.init 1 1 1 1 1 1 none none none).F66)
       ∧ (Tsai_Wu.init 1 1 1 1 1 1 none none none).F13 =
           4*Real.sqrt (Tsai_Wu.init 1 1 1 1 1 1 none none none).F55
             - (2*(Tsai_Wu.init 1 1 1 1 1 1 none none none).F1
                   * Real.sqrt (Tsai_Wu.init 1 1 1 1 1 1 none none none).F55
                + 2*(Tsai_Wu.init 1 1 1 1 1 1 none none none).F3
                   * Real.sqrt (Tsai_Wu.init 1 1 1 1 1 1 none none none).F55
                + (Tsai_Wu.init 1 1 1 1 1 1 none none none).F11
                + (Tsai_Wu.init 1 1 1 1 1 1 none none none).F33
                + (Tsai_Wu.init 1 1 1 1 1 1 none none none).F55)
       ∧ (Tsai_Wu.init 1 1 1 1 1 1 none none none).F23 =
           4*Real.sqrt (Tsai_Wu.init 1 1 1 1 1 1 none none none).F44
             - (2*(Tsai_Wu.init 1 1 1 1 1 1 none none none).F2
                   * Real.sqrt (Tsai_Wu.init 1 1 1 1 1 1 none none none).F44
                + 2*(Tsai_Wu.init 1 1 1 1 1 1 none none none).F3
                   * Real.sqrt (Tsai_Wu.init 1 1 1 1 1 1 none none none).F44
                + (Tsai_Wu.init 1 1 1 1 1 1 none none none).F22
                + (Tsai_Wu.init 1 1 1 1 1 1 none none none).F33
                + (Tsai_Wu.init 1 1 1 1 1 1 none none none).F44)) :=
  ⟨one_ne_zero,
   init_coefficients 1 1 1 1 1 1 none none none
     one_ne_zero one_ne_zero one_ne_zero one_ne_zero one_ne_zero one_ne_zero⟩

/-- C5: at the all-zero stress state, `criterio` computes `R = 0` and the
verdict is "does not fail"; there `A = 0` and `B = 0`, and the float
evaluation of the safety-factor expression is degenerate: it yields the
distinguishable non-finite outcome (modelled by `none`), not a silent finite
number. -/
theorem criterio_zero_stress (tw : Tsai_Wu) :
    (tw.criterio 0 0 0 0 0 0).2.R = 0
    ∧ (tw.criterio 0 0 0 0 0 0).2.falha = false
    ∧ tw.A 0 0 0 0 0 0 = 0
    ∧ tw.B 0 0 0 0 0 0 = 0
    ∧ tw.fatorFin 0 0 0 0 0 0 = none := by
  have hR : tw.R 0 0 0 0 0 0 = 0 := by simp [Tsai_Wu.R]
  have hA : tw.A 0 0 0 0 0 0 = 0 := by simp [Tsai_Wu.A]
  have hB : tw.B 0 0 0 0 0 0 = 0 := by simp [Tsai_Wu.B]
  refine ⟨?_, ?_, hA, hB, ?_⟩
  · norm_num [Tsai_Wu.criterio, hR]
  · norm_num [Tsai_Wu.criterio, hR]
  · simp [Tsai_Wu.fatorFin, hA]

/-- C9: `criterio` never mutates the object: the returned handle is `self`
itself, all twelve stored coefficients are unchanged, and chaining a second
evaluation through the returned handle behaves identically to an independent
evaluation on the original object. -/
theorem criterio_no_mutation (tw : Tsai_Wu)
    (x y z xy xz yz x2 y2 z2 xy2 xz2 yz2 : ℝ) :
    (tw.criterio x y z xy xz yz).1 = tw
    ∧ (tw.criterio x y z xy xz yz).1.F1 = tw.F1
    ∧ (tw.criterio x y z xy xz yz).1.F2 = tw.F2
    ∧ (tw.criterio x y z xy xz yz).1.F3 = tw.F3
    ∧ (tw.criterio x y z xy xz yz).1.F11 = tw.F11
    ∧ (tw.criterio x y z xy xz yz).1.F22 = tw.F22
    ∧ (tw.criterio x y z xy xz yz).1.F33 = tw.F33
    ∧ (tw.criterio x y z xy xz yz).1.F44 = tw.F44
    ∧ (tw.criterio x y z xy xz yz).1.F55 = tw.F55
    ∧ (tw.criterio x y z xy xz yz).1.F66 = tw.F66
    ∧ (tw.criterio x y z xy xz yz).1.F12 = tw.F12
    ∧ (tw.criterio x y z xy xz yz).1.F13 = tw.F13
    ∧ (tw.criterio x y z xy xz yz).1.F23 = tw.F23
    ∧ ((tw.criterio x y z xy xz yz).1).criterio x2 y2 z2 xy2 xz2 yz2
        = tw.criterio x2 y2 z2 xy2 xz2 yz2 := by
  have h1 : (tw.criterio x y z xy xz yz).1 = tw := by
    simp only [Tsai_Wu.criterio]
    split <;> rfl
  exact ⟨h1, by rw [h1], by rw [h1], by rw [h1], by rw [h1], by rw [h1],
    by rw [h1], by rw [h1], by rw [h1], by rw [h1], by rw [h1], by rw [h1],
    by rw [h1], by rw [h1]⟩

/-- C10: when at least one of the optional parameters `Yc Yt Sxz` is absent,
construction takes the transversely-isotropic branch: `F2 = F1`,
`F22 = F11`, `F55 = F44`, and any optional values that were supplied are
ignored. -/
theorem init_partial_optional (Xc Xt Zc Zt Sxy Syz : ℝ) (Yc Yt Sxz : Option ℝ)
    (h : Yc = none ∨ Yt = none ∨ Sxz = none) :
    (Tsai_Wu.init Xc Xt Zc Zt Sxy Syz Yc Yt Sxz).F2
        = (Tsai_Wu.init Xc Xt Zc Zt Sxy Syz Yc Yt Sxz).F1
    ∧ (Tsai_Wu.init Xc Xt Zc Zt Sxy Syz Yc Yt Sxz).F22
        = (Tsai_Wu.init Xc Xt Zc Zt Sxy Syz Yc Yt Sxz).F11
    ∧ (Tsai_Wu.init Xc Xt Zc Zt Sxy Syz Yc Yt Sxz).F55
        = (Tsai_Wu.init Xc Xt Zc Zt Sxy Syz Yc Yt Sxz).F44 := by
  cases Yc <;> cases Yt <;> cases Sxz <;>
    first
      | exact ⟨rfl, rfl, rfl⟩
      | simp at h

/-- Witness for C10: `Yc` absent while `Yt = 2` and `Sxz = 3` are supplied. -/
theorem init_partial_optional_witness :
    ((none : Option ℝ) = none ∨ (some (2:ℝ)) = none ∨ (some (3:ℝ)) = none)
    ∧ ((Tsai_Wu.init 1 1 1 1 1 1 none (some 2) (some 3)).F2
          = (Tsai_Wu.init 1 1 1 1 1 1 none (some 2) (some 3)).F1
       ∧ (Tsai_Wu.init 1 1 1 1 1 1 none (some 2) (some 3)).F22
          = (Tsai_Wu.init 1 1 1 1 1 1 none (some 2) (some 3)).F11
       ∧ (Tsai_Wu.init 1 1 1 1 1 1 none (some 2) (some 3)).F55
          = (Tsai_Wu.init 1 1 1 1 1 1 none (some 2) (some 3)).F44) :=
  ⟨Or.inl rfl,
   init_partial_optional 1 1 1 1 1 1 none (some 2) (some 3) (Or.inl rfl)⟩

/-- C6 counterexample: `criterio` does not return a structured result
containing the failure index, the verdict and the safety factor: at the
material `Tsai_Wu.init 1 2 1 2 1 1 none none none` the calls with stress
`x = 2` and with all-zero stress return the very same value (the object
itself), although their failure indices differ (1 versus 0) and their
verdicts differ (fails versus does not fail); the triple is only carried by
the printed report. -/
theorem criterio_return_carries_no_R :
    ((Tsai_Wu.init 1 2 1 2 1 1 none none none).criterio 2 0 0 0 0 0).1
        = ((Tsai_Wu.init 1 2 1 2 1 1 none none none).criterio 0 0 0 0 0 0).1
    ∧ ((Tsai_Wu.init 1 2 1 2 1 1 none none none).criterio 2 0 0 0 0 0).2.R
        ≠ ((Tsai_Wu.init 1 2 1 2 1 1 none none none).criterio 0 0 0 0 0 0).2.R
    ∧ ((Tsai_Wu.init 1 2 1 2 1 1 none none none).criterio 2 0 0 0 0 0).2.falha = true
    ∧ ((Tsai_Wu.init 1 2 1 2 1 1 none none none).criterio 0 0 0 0 0 0).2.falha = false := by
  have hfst : ∀ (tw : Tsai_Wu) (a b c d e f : ℝ), (tw.criterio a b c d e f).1 = tw := by
    intro tw a b c d e f
    simp only [Tsai_Wu.criterio]
    split <;> rfl
  have hsnd : ∀ (tw : Tsai_Wu) (a b c d e f : ℝ),
      (tw.criterio a b c d e f).2.R = tw.R a b c d e f := by
    intro tw a b c d e f
    simp only [Tsai_Wu.criterio]
    split <;> rfl
  have hR2 : (Tsai_Wu.init 1 2 1 2 1 1 none none none).R 2 0 0 0 0 0 = 1 := by
    norm_num [Tsai_Wu.R, Tsai_Wu.init]
  have hR0 : (Tsai_Wu.init 1 2 1 2 1 1 none none none).R 0 0 0 0 0 0 = 0 := by
    norm_num [Tsai_Wu.R, Tsai_Wu.init]
  refine ⟨by rw [hfst, hfst], ?_, ?_, ?_⟩
  · rw [hsnd, hsnd, hR2, hR0]
    norm_num
  · simp only [Tsai_Wu.criterio, hR2]
    norm_num
  · simp only [Tsai_Wu.criterio, hR0]
    norm_num

/-- C6 amended: for every stress input, `criterio` returns the object itself
(a handle for chaining), and the structured triple — failure index `R`,
verdict, safety factor — is carried by the textual report it emits (modelled
by the `Relatorio` record), not by the return value. -/
theorem criterio_returns_self_and_reports (tw : Tsai_Wu) (x y z xy xz yz : ℝ) :
    (tw.criterio x y z xy xz yz).1 = tw
    ∧ (tw.criterio x y z xy xz yz).2.R = tw.R x y z xy xz yz
    ∧ (tw.criterio x y z xy xz yz).2.fator = tw.fator x y z xy xz yz
    ∧ ((tw.criterio x y z xy xz yz).2.falha = true ↔ 1 ≤ |tw.R x y z xy xz yz|) := by
  simp only [Tsai_Wu.criterio]
  split <;> rename_i h <;> simp_all

/-- C7 (code bug, failing input): at the material
`Tsai_Wu.init 1 1 1 1 1 1 none none none` and the stress `x = y = 1` (all
other components zero) the code's safety factor is `1`, yet re-evaluating
the stress scaled by that factor yields a failure index of `4`, far from
`1`: the scaling law stated by the spec (and by the source's own comment,
which calls the factor the multiplier on all stresses needed to reach
failure) fails, because the `A` of the safety-factor solve is not the
quadratic part of `R`. -/
theorem scaling_law_failing_input :
    (Tsai_Wu.init 1 1 1 1 1 1 none none none).fator 1 1 0 0 0 0 = 1
    ∧ ((Tsai_Wu.init 1 1 1 1 1 1 none none none).criterio
        ((Tsai_Wu.init 1 1 1 1 1 1 none none none).fator 1 1 0 0 0 0 * 1)
        ((Tsai_Wu.init 1 1 1 1 1 1 none none none).fator 1 1 0 0 0 0 * 1)
        ((Tsai_Wu.init 1 1 1 1 1 1 none none none).fator 1 1 0 0 0 0 * 0)
        ((Tsai_Wu.init 1 1 1 1 1 1 none none none).fator 1 1 0 0 0 0 * 0)
        ((Tsai_Wu.init 1 1 1 1 1 1 none none none).fator 1 1 0 0 0 0 * 0)
        ((Tsai_Wu.init 1 1 1 1 1 1 none none none).fator 1 1 0 0 0 0 * 0)).2.R = 4 := by
  have h4 : Real.sqrt 4 = 2 := by
    rw [show (4:ℝ) = 2^2 by norm_num, Real.sqrt_sq (by norm_num)]
  have hf : (Tsai_Wu.init 1 1 1 1 1 1 none none none).fator 1 1 0 0 0 0 = 1 := by
    norm_num [Tsai_Wu.fator, Tsai_Wu.A, Tsai_Wu.B, Tsai_Wu.init, Real.sqrt_one, h4]
  have hsnd : ∀ (tw : Tsai_Wu) (a b c d e f : ℝ),
      (tw.criterio a b c d e f).2.R = tw.R a b c d e f := by
    intro tw a b c d e f
    simp only [Tsai_Wu.criterio]
    split <;> rfl
  refine ⟨hf, ?_⟩
  rw [hf, hsnd]
  norm_num [Tsai_Wu.R, Tsai_Wu.init, Real.sqrt_one]
